import Mathlib

/-!
Shallow embedding of the three browser loader scripts of the repository
(`static/js/sources.js`, `static/js/improvements.js`, and the news loader):
each fetches a JSON endpoint and renders into DOM containers via HTML
strings.  JavaScript values are modelled by `JSValue`, container contents by
`Content` (a raw `innerHTML` string or an appended list of child elements),
and a settled fetch by `Except String Response` (a rejected promise carries
the stringified error; a response carries the HTTP status and the outcome of
`res.json()`).  Thrown-and-caught exceptions are threaded explicitly, so the
loaders are total functions from a settled fetch outcome and the initial
container state to the final container state.
-/

/-- A JavaScript value as it can appear in a parsed JSON body (plus
`undefined`, which property access on absent keys produces). -/
inductive JSValue where
  | undefined
  | null
  | bool (b : Bool)
  | num (n : Int)
  | str (s : String)
  | arr (elems : List JSValue)
  | obj (fields : List (String × JSValue))

/-- First binding of a key in an object literal, as JS property lookup. -/
def jsLookup (fields : List (String × JSValue)) (k : String) : Option JSValue :=
  (fields.find? (fun p => p.1 == k)).map Prod.snd

/-- Property access `v.k`: throws a TypeError on `null`/`undefined`,
yields `undefined` on absent keys and on non-object primitives. -/
def jsGet : JSValue → String → Except String JSValue
  | .null, k => .error ("TypeError: Cannot read properties of null (reading " ++ k ++ ")")
  | .undefined, k => .error ("TypeError: Cannot read properties of undefined (reading " ++ k ++ ")")
  | .obj fields, k => .ok ((jsLookup fields k).getD .undefined)
  | _, _ => .ok .undefined

/-- Total property access for values that are not `null`/`undefined`
(where `jsGet` cannot throw). -/
def getProp : JSValue → String → JSValue
  | .obj fields, k => (jsLookup fields k).getD .undefined
  | _, _ => .undefined

/-- JS truthiness: `undefined`, `null`, `false`, `0` and `""` are falsy. -/
def jsTruthy : JSValue → Bool
  | .undefined => false
  | .null => false
  | .bool b => b
  | .num n => !(n == 0)
  | .str s => !(s == "")
  | .arr _ => true
  | .obj _ => true

/-- The `a || b` operator: `a` when truthy, else `b`. -/
def jsOr (a b : JSValue) : JSValue :=
  if jsTruthy a then a else b

/-- The `a ?? b` operator: `b` exactly when `a` is `null` or `undefined`. -/
def nullishOr (a b : JSValue) : JSValue :=
  match a with
  | .undefined => b
  | .null => b
  | _ => a

/-- Fuel-indexed string conversion: arrays stringify as their elements
joined by commas (`Array.prototype.toString`), with `null`/`undefined`
elements joining as empty.  The fuel only bounds the nesting depth of
arrays; it is instantiated with the size of the value, which always
suffices. -/
def jsToStringGo : Nat → JSValue → String
  | _, .undefined => "undefined"
  | _, .null => "null"
  | _, .bool true => "true"
  | _, .bool false => "false"
  | _, .num n => toString n
  | _, .str s => s
  | _, .obj _ => "[object Object]"
  | 0, .arr _ => ""
  | n + 1, .arr elems =>
      String.intercalate "," (elems.map fun x =>
        match x with
        | .undefined => ""
        | .null => ""
        | y => jsToStringGo n y)

/-- String interpolation of a JS value inside a template literal.  The
fuel bounds only the array nesting depth of the stringified value; no
response body of this application comes near the bound. -/
def jsToString (v : JSValue) : String :=
  jsToStringGo 1000000 v

/-- The receiver of a `forEach` call must be an actual array; anything
else throws. -/
def jsToArray : JSValue → Option (List JSValue)
  | .arr elems => some elems
  | _ => none

/-- The message of the TypeError thrown by `.forEach` on a non-array. -/
def forEachNotFunction : String :=
  "TypeError: (intermediate value).forEach is not a function"

/-- A DOM element created with `document.createElement` and populated via
`innerHTML` before being appended to a container. -/
structure Elem where
  tag : String
  className : String
  innerHTML : String
deriving DecidableEq, Repr

/-- The content of a container: either a raw `innerHTML` string, or the
children appended after the container was cleared with `innerHTML = ""`. -/
inductive Content where
  | html (s : String)
  | children (els : List Elem)
deriving DecidableEq, Repr

/-- A settled HTTP response: the status code and the outcome of
`res.json()` (`Except.error` when the body is not valid JSON). -/
structure Response where
  status : Nat
  body : Except String JSValue

/-- A `forEach` loop with a per-element fragment builder that may throw:
appends
the fragments built before the throw, and reports the thrown message. -/
def renderLoop (render : JSValue → Except String Elem) :
    List JSValue → List Elem → (List Elem × Option String)
  | [], acc => (acc, none)
  | x :: xs, acc =>
    match render x with
    | .error e => (acc, some e)
    | .ok el => renderLoop render xs (acc ++ [el])

/-! ## The sources view (`static/js/sources.js`) -/

/-- The `li.innerHTML` template of `loadSources`:
`[${s.from}] <a href="${s.url}" target="_blank" rel="noopener">${s.url}</a>`. -/
def sourceEntryFragment (fromV urlV : JSValue) : String :=
  "[" ++ jsToString fromV ++ "] <a href=\"" ++ jsToString urlV ++
    "\" target=\"_blank\" rel=\"noopener\">" ++ jsToString urlV ++ "</a>"

/-- One iteration of the `forEach` body of `loadSources`: the property
accesses `s.from` and `s.url` may throw, the template never does. -/
def renderSourceEntry (s : JSValue) : Except String Elem := do
  let f ← jsGet s "from"
  let u ← jsGet s "url"
  Except.ok ⟨"li", "", sourceEntryFragment f u⟩

/-- Value of `list.innerHTML` after the catch branch of `loadSources`. -/
def sourcesErrHtml (e : String) : String :=
  "<li>Failed to load sources. " ++ e ++ "</li>"

/-- The synchronous first step of `loadSources`:
`list.innerHTML = "<li>Loading...</li>"`, before `fetch` is issued. -/
def sourcesLoading (_c : Content) : Content :=
  Content.html "<li>Loading...</li>"

/-- The rest of `loadSources` once the fetch promise has settled:
`res.json()`, then clear the list and render `(data.sources || [])`;
any throw is caught and replaces the list content with the error line. -/
def sourcesAfterFetch (f : Except String Response) : Content :=
  match f with
  | .error e => .html (sourcesErrHtml e)
  | .ok r =>
    match r.body with
    | .error e => .html (sourcesErrHtml e)
    | .ok data =>
      match jsGet data "sources" with
      | .error e => .html (sourcesErrHtml e)
      | .ok sv =>
        match jsToArray (jsOr sv (.arr [])) with
        | none => .html (sourcesErrHtml forEachNotFunction)
        | some l =>
          match renderLoop renderSourceEntry l [] with
          | (els, none) => .children els
          | (_, some e) => .html (sourcesErrHtml e)

/-- The routine `loadSources`, as a function from the settled fetch outcome and the
initial content of `#sources-agg` to its final content. -/
def loadSources (f : Except String Response) (init : Content) : Content :=
  let _loading := sourcesLoading init
  sourcesAfterFetch f

/-! ## The improvements view (`static/js/improvements.js`) -/

/-- The `<h3>` line of an item: `<h3>${item.headline ?? "Untitled"}</h3>`. -/
def headlinePart (h : JSValue) : String :=
  "<h3>" ++ jsToString (nullishOr h (.str "Untitled")) ++ "</h3>"

/-- The summary line of an item: `<p>${item.summary ?? ""}</p>`. -/
def summaryPart (s : JSValue) : String :=
  "<p>" ++ jsToString (nullishOr s (.str "")) ++ "</p>"

/-- The conditional why block:
`${item.why ? `<p><strong>Why it matters:</strong> ${item.why}</p>` : ""}`. -/
def whyPart (w : JSValue) : String :=
  if jsTruthy w then
    "<p><strong>Why it matters:</strong> " ++ jsToString w ++ "</p>"
  else ""

/-- The conditional documentation link block of an improvements item. -/
def improveLinkPart (l : JSValue) : String :=
  if jsTruthy l then
    "<p class=\"link\"><a href=\"" ++ jsToString l ++
      "\" target=\"_blank\" rel=\"noopener\">Read documentation</a></p>"
  else ""

/-- The full `div.innerHTML` template of an improvements item. -/
def improvementFragment (h s w l : JSValue) : String :=
  "\n        " ++ headlinePart h ++ "\n        " ++ summaryPart s ++
    "\n        " ++ whyPart w ++ "\n        " ++ improveLinkPart l ++ "\n      "

/-- The element one improvements item renders to. -/
def improvementElem (h s w l : JSValue) : Elem :=
  ⟨"div", "item", improvementFragment h s w l⟩

/-- One iteration of the items `forEach` of `loadImprovements`: the four
property accesses may throw (only when `item` is `null`/`undefined`). -/
def renderImprovementItem (item : JSValue) : Except String Elem := do
  let h ← jsGet item "headline"
  let s ← jsGet item "summary"
  let w ← jsGet item "why"
  let l ← jsGet item "link"
  Except.ok (improvementElem h s w l)

/-- The `li.innerHTML` template of the sources region shared by the
improvements and news views:
`<a href="${url}" target="_blank" rel="noopener">${url}</a>`. -/
def feedSourceFragment (url : JSValue) : String :=
  "<a href=\"" ++ jsToString url ++ "\" target=\"_blank\" rel=\"noopener\">" ++
    jsToString url ++ "</a>"

/-- One iteration of the sources `forEach` of the feed views; the callback
uses the element directly, so it can never throw. -/
def renderFeedSource (url : JSValue) : Except String Elem :=
  Except.ok ⟨"li", "", feedSourceFragment url⟩

/-- The two containers a feed view (improvements or news) writes to. -/
structure FeedState where
  listEl : Content
  sourcesEl : Content
deriving DecidableEq, Repr

/-- Value of `listEl.innerHTML` after the catch branch of `loadImprovements`. -/
def improvementsErrHtml (e : String) : String :=
  "<p>Failed to load improvements. " ++ e ++ "</p>"

/-- The synchronous first step of `loadImprovements`:
`listEl.innerHTML = "<p>Loading...</p>"`, before `fetch` is issued; the
sources container is not touched. -/
def improvementsLoading (st : FeedState) : FeedState :=
  { st with listEl := Content.html "<p>Loading...</p>" }

/-- The rest of `loadImprovements` once the fetch promise has settled,
starting from the state after the loading placeholder was shown.  The
state at each possible throw point is captured so the catch branch
(which overwrites only `listEl`) is faithful. -/
def improvementsAfterFetch (f : Except String Response) (st : FeedState) :
    FeedState :=
  match f with
  | .error e => { st with listEl := .html (improvementsErrHtml e) }
  | .ok r =>
  match r.body with
  | .error e => { st with listEl := .html (improvementsErrHtml e) }
  | .ok data =>
  let st1 := { st with listEl := Content.children [] }
  match jsGet data "items" with
  | .error e => { st1 with listEl := .html (improvementsErrHtml e) }
  | .ok iv =>
  match jsToArray (jsOr iv (.arr [])) with
  | none => { st1 with listEl := .html (improvementsErrHtml forEachNotFunction) }
  | some items =>
  match renderLoop renderImprovementItem items [] with
  | (_, some e) => { st1 with listEl := .html (improvementsErrHtml e) }
  | (els, none) =>
  let st2 : FeedState := { listEl := Content.children els, sourcesEl := Content.children [] }
  match jsGet data "sources" with
  | .error e => { st2 with listEl := .html (improvementsErrHtml e) }
  | .ok sv =>
  match jsToArray (jsOr sv (.arr [])) with
  | none => { st2 with listEl := .html (improvementsErrHtml forEachNotFunction) }
  | some srcs =>
  match renderLoop renderFeedSource srcs [] with
  | (sEls, some e) =>
      { listEl := .html (improvementsErrHtml e), sourcesEl := .children sEls }
  | (sEls, none) =>
      { listEl := Content.children els, sourcesEl := Content.children sEls }

/-- The routine `loadImprovements`, as a function from the settled fetch outcome and
the initial contents of `#improvements-list` and `#sources-list` to their
final contents. -/
def loadImprovements (f : Except String Response) (init : FeedState) : FeedState :=
  improvementsAfterFetch f (improvementsLoading init)

/-! ## The news view (the unnamed news script) -/

/-- The conditional article link block of a news item. -/
def newsLinkPart (l : JSValue) : String :=
  if jsTruthy l then
    "<p class=\"link\"><a href=\"" ++ jsToString l ++
      "\" target=\"_blank\" rel=\"noopener\">Open article</a></p>"
  else ""

/-- The full `div.innerHTML` template of a news item (no why block). -/
def newsFragment (h s l : JSValue) : String :=
  "\n        " ++ headlinePart h ++ "\n        " ++ summaryPart s ++
    "\n        " ++ newsLinkPart l ++ "\n      "

/-- The element one news item renders to. -/
def newsElem (h s l : JSValue) : Elem :=
  ⟨"div", "item", newsFragment h s l⟩

/-- One iteration of the items `forEach` of `loadNews`. -/
def renderNewsItem (item : JSValue) : Except String Elem := do
  let h ← jsGet item "headline"
  let s ← jsGet item "summary"
  let l ← jsGet item "link"
  Except.ok (newsElem h s l)

/-- Value of `newsEl.innerHTML` after the catch branch of `loadNews`. -/
def newsErrHtml (e : String) : String :=
  "<p>Failed to load news. " ++ e ++ "</p>"

/-- The synchronous first step of `loadNews`, before `fetch` is issued. -/
def newsLoading (st : FeedState) : FeedState :=
  { st with listEl := Content.html "<p>Loading...</p>" }

/-- The rest of `loadNews` once the fetch promise has settled. -/
def newsAfterFetch (f : Except String Response) (st : FeedState) : FeedState :=
  match f with
  | .error e => { st with listEl := .html (newsErrHtml e) }
  | .ok r =>
  match r.body with
  | .error e => { st with listEl := .html (newsErrHtml e) }
  | .ok data =>
  let st1 := { st with listEl := Content.children [] }
  match jsGet data "items" with
  | .error e => { st1 with listEl := .html (newsErrHtml e) }
  | .ok iv =>
  match jsToArray (jsOr iv (.arr [])) with
  | none => { st1 with listEl := .html (newsErrHtml forEachNotFunction) }
  | some items =>
  match renderLoop renderNewsItem items [] with
  | (_, some e) => { st1 with listEl := .html (newsErrHtml e) }
  | (els, none) =>
  let st2 : FeedState := { listEl := Content.children els, sourcesEl := Content.children [] }
  match jsGet data "sources" with
  | .error e => { st2 with listEl := .html (newsErrHtml e) }
  | .ok sv =>
  match jsToArray (jsOr sv (.arr [])) with
  | none => { st2 with listEl := .html (newsErrHtml forEachNotFunction) }
  | some srcs =>
  match renderLoop renderFeedSource srcs [] with
  | (sEls, some e) =>
      { listEl := .html (newsErrHtml e), sourcesEl := .children sEls }
  | (sEls, none) =>
      { listEl := Content.children els, sourcesEl := Content.children sEls }

/-- The routine `loadNews`, as a function from the settled fetch outcome and the
initial contents of `#news-list` and `#sources-list` to their final
contents. -/
def loadNews (f : Except String Response) (init : FeedState) : FeedState :=
  newsAfterFetch f (newsLoading init)

/-! ## Helper lemmas -/

/-- When the per-element renderer succeeds on every element, the render
loop appends exactly one fragment per element, in order. -/
theorem renderLoop_ok (render : JSValue → Except String Elem)
    (g : JSValue → Elem) (l : List JSValue) (acc : List Elem)
    (h : ∀ x ∈ l, render x = Except.ok (g x)) :
    renderLoop render l acc = (acc ++ l.map g, none) := by
  induction l generalizing acc with
  | nil => simp [renderLoop]
  | cons x xs ih =>
    have hx := h x (List.mem_cons_self x xs)
    have hxs := ih (acc ++ [g x]) (fun y hy => h y (List.mem_cons_of_mem x hy))
    simp [renderLoop, hx, hxs]

/-- The sources region renderer of the feed views never throws. -/
theorem renderLoop_feedSource (l : List JSValue) (acc : List Elem) :
    renderLoop renderFeedSource l acc =
      (acc ++ l.map (fun u => ⟨"li", "", feedSourceFragment u⟩), none) :=
  renderLoop_ok renderFeedSource _ l acc (fun _ _ => rfl)

/-- On any value other than `null`/`undefined` the item renderer of the
improvements view succeeds and produces the four-field fragment. -/
theorem renderImprovementItem_eq (x : JSValue)
    (h1 : x ≠ JSValue.null) (h2 : x ≠ JSValue.undefined) :
    renderImprovementItem x = Except.ok (improvementElem
      (getProp x "headline") (getProp x "summary")
      (getProp x "why") (getProp x "link")) := by
  cases x <;> simp_all [renderImprovementItem, jsGet, getProp, Bind.bind, Except.bind]

/-- On any value other than `null`/`undefined` the item renderer of the
news view succeeds and produces the three-field fragment. -/
theorem renderNewsItem_eq (x : JSValue)
    (h1 : x ≠ JSValue.null) (h2 : x ≠ JSValue.undefined) :
    renderNewsItem x = Except.ok (newsElem
      (getProp x "headline") (getProp x "summary") (getProp x "link")) := by
  cases x <;> simp_all [renderNewsItem, jsGet, getProp, Bind.bind, Except.bind]

/-- On any value other than `null`/`undefined` the entry renderer of the
sources view succeeds. -/
theorem renderSourceEntry_eq (x : JSValue)
    (h1 : x ≠ JSValue.null) (h2 : x ≠ JSValue.undefined) :
    renderSourceEntry x = Except.ok
      ⟨"li", "", sourceEntryFragment (getProp x "from") (getProp x "url")⟩ := by
  cases x <;> simp_all [renderSourceEntry, jsGet, getProp, Bind.bind, Except.bind]

/-- The sources error line is never the loading placeholder. -/
theorem sourcesErrHtml_ne_loading (e : String) :
    sourcesErrHtml e ≠ "<li>Loading...</li>" := by
  intro h
  unfold sourcesErrHtml at h
  have hl := congrArg String.length h
  rw [String.length_append, String.length_append] at hl
  have h1 : ("<li>Failed to load sources. " : String).length = 28 := by decide
  have h2 : ("</li>" : String).length = 5 := by decide
  have h3 : ("<li>Loading...</li>" : String).length = 19 := by decide
  rw [h1, h2, h3] at hl
  omega

/-- The improvements error line is never the loading placeholder. -/
theorem improvementsErrHtml_ne_loading (e : String) :
    improvementsErrHtml e ≠ "<p>Loading...</p>" := by
  intro h
  unfold improvementsErrHtml at h
  have hl := congrArg String.length h
  rw [String.length_append, String.length_append] at hl
  have h1 : ("<p>Failed to load improvements. " : String).length = 32 := by decide
  have h2 : ("</p>" : String).length = 4 := by decide
  have h3 : ("<p>Loading...</p>" : String).length = 17 := by decide
  rw [h1, h2, h3] at hl
  omega

/-- The news error line is never the loading placeholder. -/
theorem newsErrHtml_ne_loading (e : String) :
    newsErrHtml e ≠ "<p>Loading...</p>" := by
  intro h
  unfold newsErrHtml at h
  have hl := congrArg String.length h
  rw [String.length_append, String.length_append] at hl
  have h1 : ("<p>Failed to load news. " : String).length = 24 := by decide
  have h2 : ("</p>" : String).length = 4 := by decide
  have h3 : ("<p>Loading...</p>" : String).length = 17 := by decide
  rw [h1, h2, h3] at hl
  omega

/-- The routine `loadSources` always settles to either an error line or a rendered
children list. -/
theorem loadSources_shape (f : Except String Response) (c : Content) :
    (∃ e, loadSources f c = Content.html (sourcesErrHtml e)) ∨
    (∃ els, loadSources f c = Content.children els) := by
  unfold loadSources sourcesAfterFetch
  repeat' split
  all_goals first
    | exact Or.inl ⟨_, rfl⟩
    | exact Or.inr ⟨_, rfl⟩

/-- The items container of `loadImprovements` always settles to either an
error line or a rendered children list. -/
theorem loadImprovements_listEl_shape (f : Except String Response) (st : FeedState) :
    (∃ e, (loadImprovements f st).listEl = Content.html (improvementsErrHtml e)) ∨
    (∃ els, (loadImprovements f st).listEl = Content.children els) := by
  unfold loadImprovements improvementsAfterFetch improvementsLoading
  repeat' split
  all_goals first
    | exact Or.inl ⟨_, rfl⟩
    | exact Or.inr ⟨_, rfl⟩

/-- The items container of `loadNews` always settles to either an error
line or a rendered children list. -/
theorem loadNews_listEl_shape (f : Except String Response) (st : FeedState) :
    (∃ e, (loadNews f st).listEl = Content.html (newsErrHtml e)) ∨
    (∃ els, (loadNews f st).listEl = Content.children els) := by
  unfold loadNews newsAfterFetch newsLoading
  repeat' split
  all_goals first
    | exact Or.inl ⟨_, rfl⟩
    | exact Or.inr ⟨_, rfl⟩

/-! ## Claim theorems -/

/-- C1 counterexample: a request that completes with status 404 and a valid
JSON body is NOT treated as a failure — `loadSources` proceeds to render the
entries of the response instead of replacing the container with an error
message.  The loaders never inspect the HTTP status. -/
theorem c1_counterexample :
    loadSources (Except.ok ⟨404, Except.ok (JSValue.obj
        [("sources", JSValue.arr [JSValue.obj
          [("from", JSValue.str "A"), ("url", JSValue.str "http://x.test")]])])⟩)
      (Content.html "prior") =
      Content.children [⟨"li", "",
        "[A] <a href=\"http://x.test\" target=\"_blank\" rel=\"noopener\">http://x.test</a>"⟩] ∧
    (∀ s : String, Content.children [(⟨"li", "",
        "[A] <a href=\"http://x.test\" target=\"_blank\" rel=\"noopener\">http://x.test</a>"⟩ : Elem)]
      ≠ Content.html s) :=
  ⟨by decide, fun _ h => Content.noConfusion h⟩

/-- C1 amended: the loaders ignore the HTTP status entirely — the outcome
is the same for any two statuses given the same body — and the error
branch is taken exactly on a rejected request or a body that is not valid
JSON, never on a non-2xx status alone. -/
theorem c1_amended_status_ignored (s1 s2 : Nat) (b : Except String JSValue)
    (e : String) (c : Content) (st st2 : FeedState) :
    loadSources (Except.ok ⟨s1, b⟩) c = loadSources (Except.ok ⟨s2, b⟩) c ∧
    loadImprovements (Except.ok ⟨s1, b⟩) st = loadImprovements (Except.ok ⟨s2, b⟩) st ∧
    loadNews (Except.ok ⟨s1, b⟩) st2 = loadNews (Except.ok ⟨s2, b⟩) st2 ∧
    loadSources (Except.error e) c = Content.html (sourcesErrHtml e) ∧
    loadSources (Except.ok ⟨s1, Except.error e⟩) c = Content.html (sourcesErrHtml e) :=
  ⟨rfl, rfl, rfl, rfl, rfl⟩

/-- C2: for every loader and every settled outcome, the items
container ends in exactly one of {rendered children, error line}, and is
never left showing the loading placeholder. -/
theorem c2_settled_end_state (f : Except String Response) (c : Content)
    (st st2 : FeedState) :
    (((∃ e, loadSources f c = Content.html (sourcesErrHtml e)) ∨
      (∃ els, loadSources f c = Content.children els)) ∧
      loadSources f c ≠ Content.html "<li>Loading...</li>") ∧
    (((∃ e, (loadImprovements f st).listEl = Content.html (improvementsErrHtml e)) ∨
      (∃ els, (loadImprovements f st).listEl = Content.children els)) ∧
      (loadImprovements f st).listEl ≠ Content.html "<p>Loading...</p>") ∧
    (((∃ e, (loadNews f st2).listEl = Content.html (newsErrHtml e)) ∨
      (∃ els, (loadNews f st2).listEl = Content.children els)) ∧
      (loadNews f st2).listEl ≠ Content.html "<p>Loading...</p>") := by
  refine ⟨⟨loadSources_shape f c, ?_⟩, ⟨loadImprovements_listEl_shape f st, ?_⟩,
    ⟨loadNews_listEl_shape f st2, ?_⟩⟩
  · rcases loadSources_shape f c with ⟨e, he⟩ | ⟨els, he⟩
    · rw [he]; simp [sourcesErrHtml_ne_loading e]
    · rw [he]; simp
  · rcases loadImprovements_listEl_shape f st with ⟨e, he⟩ | ⟨els, he⟩
    · rw [he]; simp [improvementsErrHtml_ne_loading e]
    · rw [he]; simp
  · rcases loadNews_listEl_shape f st2 with ⟨e, he⟩ | ⟨els, he⟩
    · rw [he]; simp [newsErrHtml_ne_loading e]
    · rw [he]; simp

/-- C3 counterexample: at the start of an improvements or news invocation
only the items container is set to the loading placeholder; the sources
container bound to the same loader keeps its prior content. -/
theorem c3_counterexample :
    (improvementsLoading ⟨Content.html "old items", Content.html "old sources"⟩).sourcesEl
      = Content.html "old sources" ∧
    Content.html "old sources" ≠ Content.html "<p>Loading...</p>" ∧
    (newsLoading ⟨Content.html "old items", Content.html "old sources"⟩).sourcesEl
      = Content.html "old sources" :=
  ⟨rfl, by decide, rfl⟩

/-- C3 amended: before the network request each loader synchronously sets
only its primary container to the loading placeholder — the single
container of the sources view, and the items container (alone) for the improvements and
news views — and every loader factors through this loading phase. -/
theorem c3_amended_loading_phase (st st2 : FeedState) (c : Content)
    (f : Except String Response) :
    improvementsLoading st = ⟨Content.html "<p>Loading...</p>", st.sourcesEl⟩ ∧
    newsLoading st2 = ⟨Content.html "<p>Loading...</p>", st2.sourcesEl⟩ ∧
    sourcesLoading c = Content.html "<li>Loading...</li>" ∧
    loadImprovements f st = improvementsAfterFetch f (improvementsLoading st) ∧
    loadNews f st2 = newsAfterFetch f (newsLoading st2) ∧
    loadSources f c = sourcesAfterFetch f :=
  ⟨rfl, rfl, rfl, rfl, rfl, rfl⟩

/-- C7: a rejected request or an invalid JSON body is swallowed at the
loader boundary — the loader still returns a final state (it is a total
function) whose items container holds a single error line embedding the
description of the failure, with no list entries rendered. -/
theorem c7_failures_swallowed (e : String) (status : Nat) (c : Content)
    (st st2 : FeedState) :
    loadSources (Except.error e) c = Content.html (sourcesErrHtml e) ∧
    loadSources (Except.ok ⟨status, Except.error e⟩) c = Content.html (sourcesErrHtml e) ∧
    loadImprovements (Except.error e) st =
      ⟨Content.html (improvementsErrHtml e), st.sourcesEl⟩ ∧
    loadImprovements (Except.ok ⟨status, Except.error e⟩) st =
      ⟨Content.html (improvementsErrHtml e), st.sourcesEl⟩ ∧
    loadNews (Except.error e) st2 = ⟨Content.html (newsErrHtml e), st2.sourcesEl⟩ ∧
    loadNews (Except.ok ⟨status, Except.error e⟩) st2 =
      ⟨Content.html (newsErrHtml e), st2.sourcesEl⟩ :=
  ⟨rfl, rfl, rfl, rfl, rfl, rfl⟩

/-- C10: in the improvements and news views the catch branch overwrites
only the items container; after any settled outcome the sources container
either still holds its initial content (failure at or before the items
phase) or holds appended children (possibly empty or truncated) — it is
never assigned an error message. -/
theorem c10_sources_container_frame (f : Except String Response)
    (st st2 : FeedState) :
    ((loadImprovements f st).sourcesEl = st.sourcesEl ∨
      ∃ els, (loadImprovements f st).sourcesEl = Content.children els) ∧
    ((loadNews f st2).sourcesEl = st2.sourcesEl ∨
      ∃ els, (loadNews f st2).sourcesEl = Content.children els) := by
  constructor
  · unfold loadImprovements improvementsAfterFetch improvementsLoading
    repeat' split
    all_goals first
      | exact Or.inl rfl
      | exact Or.inr ⟨_, rfl⟩
  · unfold loadNews newsAfterFetch newsLoading
    repeat' split
    all_goals first
      | exact Or.inl rfl
      | exact Or.inr ⟨_, rfl⟩

/-- Success path of `loadSources` on a valid body: one `li` per entry, in
arrival order. -/
theorem loadSources_success (status : Nat) (gs : List (String × JSValue))
    (ents : List JSValue) (c : Content)
    (hents : jsLookup gs "sources" = some (JSValue.arr ents))
    (hok : ∀ x ∈ ents, x ≠ JSValue.null ∧ x ≠ JSValue.undefined) :
    loadSources (Except.ok ⟨status, Except.ok (JSValue.obj gs)⟩) c =
      Content.children (ents.map fun s =>
        ⟨"li", "", sourceEntryFragment (getProp s "from") (getProp s "url")⟩) := by
  have hren : ∀ x ∈ ents, renderSourceEntry x = Except.ok
      ⟨"li", "", sourceEntryFragment (getProp x "from") (getProp x "url")⟩ :=
    fun x hx => renderSourceEntry_eq x (hok x hx).1 (hok x hx).2
  simp only [loadSources, sourcesAfterFetch, jsGet, hents, Option.getD_some,
    jsOr, jsTruthy, if_true, jsToArray]
  rw [renderLoop_ok renderSourceEntry _ ents [] hren]
  simp

/-- Success path of `loadImprovements` on a valid body: one item `div`
per item and one `li` per source URL, in arrival order. -/
theorem loadImprovements_success (status : Nat) (fs : List (String × JSValue))
    (items srcs : List JSValue) (st : FeedState)
    (hi : jsLookup fs "items" = some (JSValue.arr items))
    (hs : jsLookup fs "sources" = some (JSValue.arr srcs))
    (hok : ∀ x ∈ items, x ≠ JSValue.null ∧ x ≠ JSValue.undefined) :
    loadImprovements (Except.ok ⟨status, Except.ok (JSValue.obj fs)⟩) st =
      ⟨Content.children (items.map fun x => improvementElem
          (getProp x "headline") (getProp x "summary")
          (getProp x "why") (getProp x "link")),
        Content.children (srcs.map fun u => ⟨"li", "", feedSourceFragment u⟩)⟩ := by
  have hren : ∀ x ∈ items, renderImprovementItem x = Except.ok (improvementElem
      (getProp x "headline") (getProp x "summary")
      (getProp x "why") (getProp x "link")) :=
    fun x hx => renderImprovementItem_eq x (hok x hx).1 (hok x hx).2
  simp only [loadImprovements, improvementsAfterFetch, improvementsLoading,
    jsGet, hi, hs, Option.getD_some, jsOr, jsTruthy, if_true, jsToArray]
  rw [renderLoop_ok renderImprovementItem _ items [] hren,
    renderLoop_feedSource srcs []]
  simp

/-- Success path of `loadNews` on a valid body. -/
theorem loadNews_success (status : Nat) (fs : List (String × JSValue))
    (items srcs : List JSValue) (st : FeedState)
    (hi : jsLookup fs "items" = some (JSValue.arr items))
    (hs : jsLookup fs "sources" = some (JSValue.arr srcs))
    (hok : ∀ x ∈ items, x ≠ JSValue.null ∧ x ≠ JSValue.undefined) :
    loadNews (Except.ok ⟨status, Except.ok (JSValue.obj fs)⟩) st =
      ⟨Content.children (items.map fun x => newsElem
          (getProp x "headline") (getProp x "summary") (getProp x "link")),
        Content.children (srcs.map fun u => ⟨"li", "", feedSourceFragment u⟩)⟩ := by
  have hren : ∀ x ∈ items, renderNewsItem x = Except.ok (newsElem
      (getProp x "headline") (getProp x "summary") (getProp x "link")) :=
    fun x hx => renderNewsItem_eq x (hok x hx).1 (hok x hx).2
  simp only [loadNews, newsAfterFetch, newsLoading,
    jsGet, hi, hs, Option.getD_some, jsOr, jsTruthy, if_true, jsToArray]
  rw [renderLoop_ok renderNewsItem _ items [] hren,
    renderLoop_feedSource srcs []]
  simp

/-- C4: on a valid response each region renders exactly one entry per
element of the corresponding sequence, in arrival order (the rendered
children are the element-wise map of the sequence in the response, so counts
and order are preserved). -/
theorem c4_render_count_and_order (status : Nat)
    (gs fs : List (String × JSValue)) (ents items srcs : List JSValue)
    (c : Content) (st st2 : FeedState)
    (hents : jsLookup gs "sources" = some (JSValue.arr ents))
    (hentsOk : ∀ x ∈ ents, x ≠ JSValue.null ∧ x ≠ JSValue.undefined)
    (hi : jsLookup fs "items" = some (JSValue.arr items))
    (hs : jsLookup fs "sources" = some (JSValue.arr srcs))
    (hitems : ∀ x ∈ items, x ≠ JSValue.null ∧ x ≠ JSValue.undefined) :
    loadSources (Except.ok ⟨status, Except.ok (JSValue.obj gs)⟩) c =
      Content.children (ents.map fun s =>
        ⟨"li", "", sourceEntryFragment (getProp s "from") (getProp s "url")⟩) ∧
    loadImprovements (Except.ok ⟨status, Except.ok (JSValue.obj fs)⟩) st =
      ⟨Content.children (items.map fun x => improvementElem
          (getProp x "headline") (getProp x "summary")
          (getProp x "why") (getProp x "link")),
        Content.children (srcs.map fun u => ⟨"li", "", feedSourceFragment u⟩)⟩ ∧
    loadNews (Except.ok ⟨status, Except.ok (JSValue.obj fs)⟩) st2 =
      ⟨Content.children (items.map fun x => newsElem
          (getProp x "headline") (getProp x "summary") (getProp x "link")),
        Content.children (srcs.map fun u => ⟨"li", "", feedSourceFragment u⟩)⟩ ∧
    (ents.map fun s =>
      (⟨"li", "", sourceEntryFragment (getProp s "from") (getProp s "url")⟩ : Elem)).length
      = ents.length ∧
    (items.map fun x => improvementElem (getProp x "headline") (getProp x "summary")
      (getProp x "why") (getProp x "link")).length = items.length ∧
    (srcs.map fun u => (⟨"li", "", feedSourceFragment u⟩ : Elem)).length = srcs.length :=
  ⟨loadSources_success status gs ents c hents hentsOk,
    loadImprovements_success status fs items srcs st hi hs hitems,
    loadNews_success status fs items srcs st2 hi hs hitems,
    List.length_map _ _, List.length_map _ _, List.length_map _ _⟩

/-- C4 witness: a concrete valid response for each loader. -/
theorem c4_render_count_and_order_witness :
    jsLookup [("sources", JSValue.arr [JSValue.obj
        [("from", JSValue.str "A"), ("url", JSValue.str "http://x.test")]])] "sources"
      = some (JSValue.arr [JSValue.obj
        [("from", JSValue.str "A"), ("url", JSValue.str "http://x.test")]]) ∧
    jsLookup [("items", JSValue.arr [JSValue.obj [("headline", JSValue.str "H")]]),
        ("sources", JSValue.arr [JSValue.str "http://s.test"])] "items"
      = some (JSValue.arr [JSValue.obj [("headline", JSValue.str "H")]]) ∧
    loadSources (Except.ok ⟨200, Except.ok (JSValue.obj [("sources", JSValue.arr
        [JSValue.obj [("from", JSValue.str "A"), ("url", JSValue.str "http://x.test")]])])⟩)
      (Content.html "prior") =
      Content.children ([JSValue.obj [("from", JSValue.str "A"),
          ("url", JSValue.str "http://x.test")]].map fun s =>
        ⟨"li", "", sourceEntryFragment (getProp s "from") (getProp s "url")⟩) ∧
    loadImprovements (Except.ok ⟨200, Except.ok (JSValue.obj
        [("items", JSValue.arr [JSValue.obj [("headline", JSValue.str "H")]]),
          ("sources", JSValue.arr [JSValue.str "http://s.test"])])⟩)
      ⟨Content.html "a", Content.html "b"⟩ =
      ⟨Content.children ([JSValue.obj [("headline", JSValue.str "H")]].map fun x =>
          improvementElem (getProp x "headline") (getProp x "summary")
            (getProp x "why") (getProp x "link")),
        Content.children ([JSValue.str "http://s.test"].map fun u =>
          ⟨"li", "", feedSourceFragment u⟩)⟩ := by
  have h := c4_render_count_and_order 200
    [("sources", JSValue.arr [JSValue.obj
      [("from", JSValue.str "A"), ("url", JSValue.str "http://x.test")]])]
    [("items", JSValue.arr [JSValue.obj [("headline", JSValue.str "H")]]),
      ("sources", JSValue.arr [JSValue.str "http://s.test"])]
    [JSValue.obj [("from", JSValue.str "A"), ("url", JSValue.str "http://x.test")]]
    [JSValue.obj [("headline", JSValue.str "H")]]
    [JSValue.str "http://s.test"]
    (Content.html "prior") ⟨Content.html "a", Content.html "b"⟩
    ⟨Content.html "a", Content.html "b"⟩
    rfl (by simp) rfl rfl (by simp)
  exact ⟨rfl, rfl, h.1, h.2.1⟩

/-- C6: a response whose `items`/`sources` keys are absent renders empty
regions through the success path — absence is an empty sequence, never an
error. -/
theorem c6_absent_keys_render_empty (status : Nat)
    (gs fs : List (String × JSValue)) (c : Content) (st st2 : FeedState)
    (hg : jsLookup gs "sources" = none)
    (h1 : jsLookup fs "items" = none)
    (h2 : jsLookup fs "sources" = none) :
    loadSources (Except.ok ⟨status, Except.ok (JSValue.obj gs)⟩) c =
      Content.children [] ∧
    loadImprovements (Except.ok ⟨status, Except.ok (JSValue.obj fs)⟩) st =
      ⟨Content.children [], Content.children []⟩ ∧
    loadNews (Except.ok ⟨status, Except.ok (JSValue.obj fs)⟩) st2 =
      ⟨Content.children [], Content.children []⟩ := by
  refine ⟨?_, ?_, ?_⟩
  · simp [loadSources, sourcesAfterFetch, jsGet, hg, jsOr, jsTruthy,
      jsToArray, renderLoop]
  · simp [loadImprovements, improvementsAfterFetch, improvementsLoading,
      jsGet, h1, h2, jsOr, jsTruthy, jsToArray, renderLoop]
  · simp [loadNews, newsAfterFetch, newsLoading,
      jsGet, h1, h2, jsOr, jsTruthy, jsToArray, renderLoop]

/-- C6 witness: the empty object body for each loader. -/
theorem c6_absent_keys_render_empty_witness :
    jsLookup ([] : List (String × JSValue)) "items" = none ∧
    jsLookup ([] : List (String × JSValue)) "sources" = none ∧
    loadSources (Except.ok ⟨200, Except.ok (JSValue.obj [])⟩) (Content.html "prior") =
      Content.children [] ∧
    loadImprovements (Except.ok ⟨200, Except.ok (JSValue.obj [])⟩)
      ⟨Content.html "a", Content.html "b"⟩ =
      ⟨Content.children [], Content.children []⟩ ∧
    loadNews (Except.ok ⟨200, Except.ok (JSValue.obj [])⟩)
      ⟨Content.html "a", Content.html "b"⟩ =
      ⟨Content.children [], Content.children []⟩ := by
  have h := c6_absent_keys_render_empty 200 [] [] (Content.html "prior")
    ⟨Content.html "a", Content.html "b"⟩ ⟨Content.html "a", Content.html "b"⟩
    rfl rfl rfl
  exact ⟨rfl, rfl, h.1, h.2.1, h.2.2⟩

/-- C5: an object item always renders (never fails), its fragment is the
four documented parts applied to the looked-up fields, an absent field
reads as `undefined`, and the parts at `undefined` give the documented
defaults: "Untitled" headline, empty summary, omitted why and link
blocks. -/
theorem c5_missing_field_defaults (fs : List (String × JSValue)) :
    renderImprovementItem (JSValue.obj fs) = Except.ok (improvementElem
      (getProp (JSValue.obj fs) "headline") (getProp (JSValue.obj fs) "summary")
      (getProp (JSValue.obj fs) "why") (getProp (JSValue.obj fs) "link")) ∧
    renderNewsItem (JSValue.obj fs) = Except.ok (newsElem
      (getProp (JSValue.obj fs) "headline") (getProp (JSValue.obj fs) "summary")
      (getProp (JSValue.obj fs) "link")) ∧
    (∀ k, jsLookup fs k = none → getProp (JSValue.obj fs) k = JSValue.undefined) ∧
    (∀ h s w l, (improvementElem h s w l).innerHTML =
      "\n        " ++ headlinePart h ++ "\n        " ++ summaryPart s ++
        "\n        " ++ whyPart w ++ "\n        " ++ improveLinkPart l ++ "\n      ") ∧
    (∀ h s l, (newsElem h s l).innerHTML =
      "\n        " ++ headlinePart h ++ "\n        " ++ summaryPart s ++
        "\n        " ++ newsLinkPart l ++ "\n      ") ∧
    headlinePart JSValue.undefined = "<h3>Untitled</h3>" ∧
    summaryPart JSValue.undefined = "<p></p>" ∧
    whyPart JSValue.undefined = "" ∧
    improveLinkPart JSValue.undefined = "" ∧
    newsLinkPart JSValue.undefined = "" := by
  refine ⟨renderImprovementItem_eq _ (by simp) (by simp),
    renderNewsItem_eq _ (by simp) (by simp), ?_,
    fun h s w l => rfl, fun h s l => rfl,
    by decide, by decide, by decide, by decide, by decide⟩
  intro k hk
  simp [getProp, hk]

/-- C5 witness: the item `{summary: "s"}`, whose other fields are absent. -/
theorem c5_missing_field_defaults_witness :
    jsLookup [("summary", JSValue.str "s")] "headline" = none ∧
    getProp (JSValue.obj [("summary", JSValue.str "s")]) "headline" = JSValue.undefined ∧
    renderImprovementItem (JSValue.obj [("summary", JSValue.str "s")]) =
      Except.ok (improvementElem
        (getProp (JSValue.obj [("summary", JSValue.str "s")]) "headline")
        (getProp (JSValue.obj [("summary", JSValue.str "s")]) "summary")
        (getProp (JSValue.obj [("summary", JSValue.str "s")]) "why")
        (getProp (JSValue.obj [("summary", JSValue.str "s")]) "link")) ∧
    headlinePart JSValue.undefined = "<h3>Untitled</h3>" := by
  have h := c5_missing_field_defaults [("summary", JSValue.str "s")]
  exact ⟨rfl, h.2.2.1 "headline" rfl, h.1, h.2.2.2.2.2.1⟩

/-- C9: a present-but-empty `headline` renders as an empty heading (the
nullish default fires only on `null`/`undefined`), an empty `summary`
renders as empty text, and `why`/`link` blocks are omitted for every
falsy value — the empty string exactly as an absent field. -/
theorem c9_empty_string_vs_absent (w : JSValue) (hw : jsTruthy w = false) :
    headlinePart (JSValue.str "") = "<h3></h3>" ∧
    summaryPart (JSValue.str "") = "<p></p>" ∧
    headlinePart JSValue.null = "<h3>Untitled</h3>" ∧
    headlinePart JSValue.undefined = "<h3>Untitled</h3>" ∧
    summaryPart JSValue.null = "<p></p>" ∧
    (∀ h, h ≠ JSValue.null → h ≠ JSValue.undefined →
      nullishOr h (JSValue.str "Untitled") = h) ∧
    jsTruthy (JSValue.str "") = false ∧
    whyPart w = "" ∧
    improveLinkPart w = "" ∧
    newsLinkPart w = "" := by
  refine ⟨by decide, by decide, by decide, by decide, by decide, ?_,
    by decide, ?_, ?_, ?_⟩
  · intro h h1 h2
    cases h <;> simp_all [nullishOr]
  · simp [whyPart, hw]
  · simp [improveLinkPart, hw]
  · simp [newsLinkPart, hw]

/-- C9 witness: the empty string is falsy, so its why/link blocks are
omitted, while the empty headline still shows an empty heading. -/
theorem c9_empty_string_vs_absent_witness :
    jsTruthy (JSValue.str "") = false ∧
    headlinePart (JSValue.str "") = "<h3></h3>" ∧
    whyPart (JSValue.str "") = "" ∧
    improveLinkPart (JSValue.str "") = "" ∧
    newsLinkPart (JSValue.str "") = "" := by
  have h := c9_empty_string_vs_absent (JSValue.str "") (by decide)
  exact ⟨by decide, h.1, h.2.2.2.2.2.2.2.1, h.2.2.2.2.2.2.2.2.1, h.2.2.2.2.2.2.2.2.2⟩

/-- The rel/target attribute string every generated anchor carries. -/
def noopenerAttrs : String := "target=\"_blank\" rel=\"noopener\""

/-- Occurrence of `t` as a contiguous substring of `s`. -/
def hasSubstr (s t : String) : Prop :=
  ∃ pre post, s.data = pre ++ (t.data ++ post)

/-- C8: every anchor the three renderers generate — the entry link of the
sources view, the source-URL link of the feed views, and the conditional item
links (present exactly when the `link` field is truthy) — carries
`target="_blank" rel="noopener"`. -/
theorem c8_anchors_noopener (f u l ln : JSValue)
    (hl : jsTruthy l = true) (hln : jsTruthy ln = true) :
    hasSubstr (sourceEntryFragment f u) noopenerAttrs ∧
    hasSubstr (feedSourceFragment u) noopenerAttrs ∧
    hasSubstr (improveLinkPart l) noopenerAttrs ∧
    hasSubstr (newsLinkPart ln) noopenerAttrs := by
  have hd : ("\" target=\"_blank\" rel=\"noopener\">" : String).data =
      ("\" " : String).data ++ (noopenerAttrs.data ++ (">" : String).data) := by
    decide
  have hdImp : ("\" target=\"_blank\" rel=\"noopener\">Read documentation</a></p>" : String).data =
      ("\" " : String).data ++
        (noopenerAttrs.data ++ (">Read documentation</a></p>" : String).data) := by
    decide
  have hdNews : ("\" target=\"_blank\" rel=\"noopener\">Open article</a></p>" : String).data =
      ("\" " : String).data ++
        (noopenerAttrs.data ++ (">Open article</a></p>" : String).data) := by
    decide
  refine ⟨?_, ?_, ?_, ?_⟩
  · refine ⟨("[" ++ jsToString f ++ "] <a href=\"" ++ jsToString u ++ "\" ").data,
      (">" ++ jsToString u ++ "</a>").data, ?_⟩
    simp [sourceEntryFragment, String.data_append, hd, noopenerAttrs]
  · refine ⟨("<a href=\"" ++ jsToString u ++ "\" ").data,
      (">" ++ jsToString u ++ "</a>").data, ?_⟩
    simp [feedSourceFragment, String.data_append, hd, noopenerAttrs]
  · refine ⟨("<p class=\"link\"><a href=\"" ++ jsToString l ++ "\" ").data,
      (">Read documentation</a></p>" : String).data, ?_⟩
    simp [improveLinkPart, hl, String.data_append, hdImp, noopenerAttrs]
  · refine ⟨("<p class=\"link\"><a href=\"" ++ jsToString ln ++ "\" ").data,
      (">Open article</a></p>" : String).data, ?_⟩
    simp [newsLinkPart, hln, String.data_append, hdNews, noopenerAttrs]

/-- C8 witness: concrete truthy link values. -/
theorem c8_anchors_noopener_witness :
    jsTruthy (JSValue.str "http://d.test") = true ∧
    jsTruthy (JSValue.str "http://n.test") = true ∧
    hasSubstr (sourceEntryFragment (JSValue.str "A") (JSValue.str "http://x.test"))
      noopenerAttrs ∧
    hasSubstr (improveLinkPart (JSValue.str "http://d.test")) noopenerAttrs ∧
    hasSubstr (newsLinkPart (JSValue.str "http://n.test")) noopenerAttrs := by
  have h := c8_anchors_noopener (JSValue.str "A") (JSValue.str "http://x.test")
    (JSValue.str "http://d.test") (JSValue.str "http://n.test") (by decide) (by decide)
  exact ⟨by decide, by decide, h.1, h.2.2.1, h.2.2.2⟩
